import Mathlib

/-!
Verification of src/src/tools/RMSD.cpp (PLUMED RMSD engine).

The C++ file is embedded shallowly: machine doubles become real numbers,
std::vector containers of per-atom data become functions out of Fin n,
the mutable RMSD and RMSDCoreData objects become records that are threaded
explicitly, and plumed_merror / plumed_massert fatal stops become an
Except String result. The external symmetric eigensolver (diagMat) is an
out-of-scope collaborator and is passed in as a function argument.
-/

open Classical Finset

noncomputable section

namespace PLMD

/-- A 3-vector of reals (PLMD::Vector). -/
abbrev Vec : Type := Fin 3 → ℝ

/-- A 3 by 3 tensor of reals (PLMD::Tensor). -/
abbrev Mat3 : Type := Fin 3 → Fin 3 → ℝ

/-- A 4 by 4 matrix of reals (Matrix of double with dimensions 4,4). -/
abbrev Mat4 : Type := Fin 4 → Fin 4 → ℝ

/-- The dot product of two 3-vectors (PLMD dotProduct). -/
def dotProduct (a b : Vec) : ℝ := ∑ i, a i * b i

/-- Squared euclidean norm of a 3-vector (Vector::modulo2). -/
def modulo2 (v : Vec) : ℝ := dotProduct v v

/-- Tensor times vector (PLMD matmul for a 3x3 tensor and a 3-vector). -/
def matmul (t : Mat3) (v : Vec) : Vec := fun i => ∑ j, t i j * v j

/-- Tensor transpose (Tensor::transpose). -/
def transpose (t : Mat3) : Mat3 := fun i j => t j i

/-- Outer product of two 3-vectors (PLMD extProduct, also Tensor(v,w)). -/
def extProduct (a b : Vec) : Mat3 := fun i j => a i * b j

/-- The weighted sum of points used for every centroid in RMSD.cpp.
Modelled from the spec: calculateCenter is declared in RMSD.h, which is not
under src; per the spec a Center is the align-weighted centroid of a point
set, a plain weighted sum since the weights are normalized to one. -/
def calculateCenter {n : ℕ} (p : Fin n → Vec) (w : Fin n → ℝ) : Vec :=
  ∑ i, w i • p i

/-- Modelled from the spec: addCenter (RMSD.h, not under src) adds a center
vector back onto every stored point. -/
def addCenter {n : ℕ} (p : Fin n → Vec) (c : Vec) : Fin n → Vec :=
  fun i => p i + c

/-- Modelled from the spec: removeCenter (RMSD.h, not under src) subtracts a
center vector from every stored point. -/
def removeCenter {n : ℕ} (p : Fin n → Vec) (c : Vec) : Fin n → Vec :=
  fun i => p i - c

/-- RMSD::simpleAlignment (RMSD.cpp lines 162-198): the SIMPLE method.
Returns the distance and the per-atom derivative vectors. -/
def simpleAlignment {n : ℕ} (align displace : Fin n → ℝ)
    (positions reference : Fin n → Vec) (squared : Bool) : ℝ × (Fin n → Vec) :=
  let apositions : Vec := ∑ i, align i • positions i
  let areference : Vec := ∑ i, align i • reference i
  let dpositions : Vec := ∑ i, displace i • positions i
  let dreference : Vec := ∑ i, displace i • reference i
  let shift : Vec := (apositions - areference) - (dpositions - dreference)
  let d : Fin n → Vec := fun i => (positions i - apositions) - (reference i - areference)
  let dist : ℝ := ∑ i, displace i * modulo2 (d i)
  let derivatives : Fin n → Vec := fun i => (2 : ℝ) • (displace i • d i + align i • shift)
  if squared then (dist, derivatives)
  else (Real.sqrt dist, fun i => (0.5 / Real.sqrt dist) • derivatives i)

/-- The distance formula stated by the spec for the SIMPLE method: the
displace-weighted squared deviation after matching the align-centroids. -/
def simpleDistSpec {n : ℕ} (align displace : Fin n → ℝ)
    (positions reference : Fin n → Vec) : ℝ :=
  ∑ i, displace i *
    modulo2 ((positions i - calculateCenter positions align) -
      (reference i - calculateCenter reference align))

/-- The shift vector stated by the spec for the SIMPLE method: the mismatch
between the align-centroid difference and the displace-centroid difference. -/
def simpleShiftSpec {n : ℕ} (align displace : Fin n → ℝ)
    (positions reference : Fin n → Vec) : Vec :=
  (calculateCenter positions align - calculateCenter reference align) -
    (calculateCenter positions displace - calculateCenter reference displace)

/-- The per-atom derivative formula stated by the spec for the SIMPLE method. -/
def simpleDerivSpec {n : ℕ} (align displace : Fin n → ℝ)
    (positions reference : Fin n → Vec) : Fin n → Vec := fun i =>
  (2 : ℝ) • (displace i •
      ((positions i - calculateCenter positions align) -
        (reference i - calculateCenter reference align)) +
    align i • simpleShiftSpec align displace positions reference)

/-- Auxiliary: the squared norm of the zero vector is zero. -/
theorem modulo2_zero : modulo2 (0 : Vec) = 0 := by
  simp [modulo2, dotProduct]

/-- Auxiliary: with positions identical to the reference, simpleAlignment
returns distance zero and all-zero derivatives, for both squared flavors. -/
theorem simpleAlignment_self {n : ℕ} (align displace : Fin n → ℝ)
    (p : Fin n → Vec) (squared : Bool) :
    simpleAlignment align displace p p squared = (0, fun _ => (0 : Vec)) := by
  unfold simpleAlignment
  cases squared <;>
    simp [sub_self, modulo2_zero, Real.sqrt_zero]

/-- The three alignment method tags of the facade (RMSD.h enum). -/
inductive AlignmentMethod : Type
  | SIMPLE : AlignmentMethod
  | OPTIMAL : AlignmentMethod
  | OPTIMAL_FAST : AlignmentMethod

/-- The RMSD facade object (class RMSD): a configured reference point set,
its two weight vectors, the method tag, and the center bookkeeping flags. -/
structure RMSD (n : ℕ) : Type where
  alignmentMethod : AlignmentMethod
  reference : Fin n → Vec
  align : Fin n → ℝ
  displace : Fin n → ℝ
  reference_center : Vec
  reference_center_is_calculated : Bool
  reference_center_is_removed : Bool
  positions_center : Vec
  positions_center_is_calculated : Bool
  positions_center_is_removed : Bool

/-- Fatal message of RMSD::setAlign when the center was removed but never
calculated (RMSD.cpp line 113). -/
def msgSetAlignCenter : String :=
  " seems that the reference center has been removed but not calculated and stored!"

/-- RMSD::setAlign (RMSD.cpp lines 101-121): store the new align weights,
optionally normalized by their total; when remove_center is requested, add
the old stored center back if it had been removed, then compute and subtract
the centroid under the new weights. -/
def RMSD.setAlign {n : ℕ} (s : RMSD n) (align : Fin n → ℝ)
    (normalize remove_center : Bool) : Except String (RMSD n) :=
  let w : ℝ := ∑ i, align i
  let inv : ℝ := 1 / w
  let a : Fin n → ℝ := if normalize then fun i => align i * inv else align
  if remove_center then
    if s.reference_center_is_removed then
      if s.reference_center_is_calculated then
        let ref1 : Fin n → Vec := addCenter s.reference s.reference_center
        let c : Vec := calculateCenter ref1 a
        .ok { s with
              align := a
              reference := removeCenter ref1 c
              reference_center := c
              reference_center_is_calculated := true
              reference_center_is_removed := true }
      else .error msgSetAlignCenter
    else
      let c : Vec := calculateCenter s.reference a
      .ok { s with
            align := a
            reference := removeCenter s.reference c
            reference_center := c
            reference_center_is_calculated := true
            reference_center_is_removed := true }
  else .ok { s with align := a }

/-- Result of the external symmetric eigensolver (diagMat): an error code,
eigenvalues in ascending order, and row-major eigenvectors. -/
structure EigenSolverResult : Type where
  code : Int
  eigenvals : Fin 4 → ℝ
  eigenvecs : Fin 4 → Fin 4 → ℝ

/-- The transient per-invocation engine state (class RMSDCoreData): the two
point sets with weights and center bookkeeping, plus every algebraic field
populated by doCoreCalc and getDistance. -/
structure RMSDCoreData (n : ℕ) : Type where
  align : Fin n → ℝ
  displace : Fin n → ℝ
  positions : Fin n → Vec
  reference : Fin n → Vec
  cpositions : Vec
  creference : Vec
  cpositions_is_removed : Bool
  creference_is_removed : Bool
  cpositions_is_calculated : Bool
  creference_is_calculated : Bool
  rr00 : ℝ
  rr11 : ℝ
  eigenvals : Fin 4 → ℝ
  eigenvecs : Fin 4 → Fin 4 → ℝ
  rotation : Mat3
  drotation_drr01 : Fin 3 → Fin 3 → Mat3
  d : Fin n → Vec
  ddist_drotation : Mat3
  ddist_drr01 : Mat3
  alEqDis : Bool
  safe : Bool
  isInitialized : Bool
  hasDistance : Bool
  distanceIsMSD : Bool
  dist : ℝ

/-- Modelled from the spec: the RMSDCoreData constructor (RMSD.h, not under
src) stores the weights and the two point sets and starts with every state
flag cleared and every computed field zeroed. -/
def mkRMSDCoreData {n : ℕ} (a dis : Fin n → ℝ) (p r : Fin n → Vec) :
    RMSDCoreData n where
  align := a
  displace := dis
  positions := p
  reference := r
  cpositions := 0
  creference := 0
  cpositions_is_removed := false
  creference_is_removed := false
  cpositions_is_calculated := false
  creference_is_calculated := false
  rr00 := 0
  rr11 := 0
  eigenvals := fun _ => 0
  eigenvecs := fun _ _ => 0
  rotation := fun _ _ => 0
  drotation_drr01 := fun _ _ => fun _ _ => 0
  d := fun _ => 0
  ddist_drotation := fun _ _ => 0
  ddist_drr01 := fun _ _ => 0
  alEqDis := false
  safe := false
  isInitialized := false
  hasDistance := false
  distanceIsMSD := false
  dist := 0

/-- Modelled from the spec: RMSDCoreData::setPositionsCenterIsRemoved
(RMSD.h, not under src) records whether the positions center has been
physically subtracted. -/
def RMSDCoreData.setPositionsCenterIsRemoved {n : ℕ} (cd : RMSDCoreData n)
    (b : Bool) : RMSDCoreData n :=
  { cd with cpositions_is_removed := b }

/-- Modelled from the spec: RMSDCoreData::setPositionsCenter (RMSD.h, not
under src) stores the positions centroid and marks it calculated. -/
def RMSDCoreData.setPositionsCenter {n : ℕ} (cd : RMSDCoreData n) (v : Vec) :
    RMSDCoreData n :=
  { cd with cpositions := v, cpositions_is_calculated := true }

/-- Modelled from the spec: RMSDCoreData::setReferenceCenterIsRemoved
(RMSD.h, not under src) records whether the reference center has been
physically subtracted. -/
def RMSDCoreData.setReferenceCenterIsRemoved {n : ℕ} (cd : RMSDCoreData n)
    (b : Bool) : RMSDCoreData n :=
  { cd with creference_is_removed := b }

/-- Modelled from the spec: RMSDCoreData::setReferenceCenter (RMSD.h, not
under src) stores the reference centroid and marks it calculated. The
facade in RMSD.cpp never calls it. -/
def RMSDCoreData.setReferenceCenter {n : ℕ} (cd : RMSDCoreData n) (v : Vec) :
    RMSDCoreData n :=
  { cd with creference := v, creference_is_calculated := true }

/-- The positions center actually used by doCoreCalc: zero when already
subtracted, the stored center otherwise (RMSD.cpp line 437). -/
def RMSDCoreData.cp {n : ℕ} (cd : RMSDCoreData n) : Vec :=
  if cd.cpositions_is_removed then 0 else cd.cpositions

/-- The reference center actually used by doCoreCalc: zero when already
subtracted, the stored center otherwise (RMSD.cpp line 438). -/
def RMSDCoreData.cr {n : ℕ} (cd : RMSDCoreData n) : Vec :=
  if cd.creference_is_removed then 0 else cd.creference

/-- The weighted cross-covariance tensor rr01 accumulated by doCoreCalc
(RMSD.cpp line 444). -/
def RMSDCoreData.rr01of {n : ℕ} (cd : RMSDCoreData n) : Mat3 :=
  ∑ i, cd.align i • extProduct (cd.positions i - cd.cp) (cd.reference i - cd.cr)

/-- The 4x4 quaternion key matrix built from rr01 (RMSD.cpp lines 448-465);
the mirrored lower-triangle assignments are written out literally. -/
def keyMatrix (rr01 : Mat3) : Mat4 :=
  ![![2 * (-rr01 0 0 - rr01 1 1 - rr01 2 2), 2 * (-rr01 1 2 + rr01 2 1),
     2 * (rr01 0 2 - rr01 2 0), 2 * (-rr01 0 1 + rr01 1 0)],
    ![2 * (-rr01 1 2 + rr01 2 1), 2 * (-rr01 0 0 + rr01 1 1 + rr01 2 2),
     2 * (-rr01 0 1 - rr01 1 0), 2 * (-rr01 0 2 - rr01 2 0)],
    ![2 * (rr01 0 2 - rr01 2 0), 2 * (-rr01 0 1 - rr01 1 0),
     2 * (rr01 0 0 - rr01 1 1 + rr01 2 2), 2 * (-rr01 1 2 - rr01 2 1)],
    ![2 * (-rr01 0 1 + rr01 1 0), 2 * (-rr01 0 2 - rr01 2 0),
     2 * (-rr01 1 2 - rr01 2 1), 2 * (rr01 0 0 + rr01 1 1 - rr01 2 2)]]

/-- The key matrix doCoreCalc hands to the eigensolver, as a function of the
core data (RMSD.cpp lines 440-465). -/
def RMSDCoreData.keyMatrixOf {n : ℕ} (cd : RMSDCoreData n) : Mat4 :=
  keyMatrix cd.rr01of

/-- The constant derivative of the key matrix with respect to rr01
(RMSD.cpp lines 470-485), mirrored entries written out literally. -/
def dm_drr01 : Fin 4 → Fin 4 → Mat3 :=
  ![![(2 : ℝ) • ![![-1, 0, 0], ![0, -1, 0], ![0, 0, -1]],
     (2 : ℝ) • ![![0, 0, 0], ![0, 0, -1], ![0, 1, 0]],
     (2 : ℝ) • ![![0, 0, 1], ![0, 0, 0], ![-1, 0, 0]],
     (2 : ℝ) • ![![0, -1, 0], ![1, 0, 0], ![0, 0, 0]]],
    ![(2 : ℝ) • ![![0, 0, 0], ![0, 0, -1], ![0, 1, 0]],
     (2 : ℝ) • ![![-1, 0, 0], ![0, 1, 0], ![0, 0, 1]],
     (2 : ℝ) • ![![0, -1, 0], ![-1, 0, 0], ![0, 0, 0]],
     (2 : ℝ) • ![![0, 0, -1], ![0, 0, 0], ![-1, 0, 0]]],
    ![(2 : ℝ) • ![![0, 0, 1], ![0, 0, 0], ![-1, 0, 0]],
     (2 : ℝ) • ![![0, -1, 0], ![-1, 0, 0], ![0, 0, 0]],
     (2 : ℝ) • ![![1, 0, 0], ![0, -1, 0], ![0, 0, 1]],
     (2 : ℝ) • ![![0, 0, 0], ![0, 0, -1], ![0, -1, 0]]],
    ![(2 : ℝ) • ![![0, -1, 0], ![1, 0, 0], ![0, 0, 0]],
     (2 : ℝ) • ![![0, 0, -1], ![0, 0, 0], ![-1, 0, 0]],
     (2 : ℝ) • ![![0, 0, 0], ![0, 0, -1], ![0, -1, 0]],
     (2 : ℝ) • ![![1, 0, 0], ![0, 1, 0], ![0, 0, -1]]]]

/-- The quaternion-to-rotation quadratic map (RMSD.cpp lines 522-530). -/
def quatToRotation (q : Fin 4 → ℝ) : Mat3 :=
  ![![q 0 * q 0 + q 1 * q 1 - q 2 * q 2 - q 3 * q 3,
     2 * (q 0 * q 3 + q 1 * q 2), 2 * (-(q 0 * q 2) + q 1 * q 3)],
    ![2 * (-(q 0 * q 3) + q 1 * q 2),
     q 0 * q 0 - q 1 * q 1 + q 2 * q 2 - q 3 * q 3,
     2 * (q 0 * q 1 + q 2 * q 3)],
    ![2 * (q 0 * q 2 + q 1 * q 3), 2 * (-(q 0 * q 1) + q 2 * q 3),
     q 0 * q 0 - q 1 * q 1 - q 2 * q 2 + q 3 * q 3]]

/-- The derivative of the rotation with respect to rr01, from the quaternion
and its derivative (RMSD.cpp lines 533-541). -/
def quatToDRotation (q : Fin 4 → ℝ) (dq : Fin 4 → Mat3) :
    Fin 3 → Fin 3 → Mat3 :=
  ![![(2 * q 0) • dq 0 + (2 * q 1) • dq 1 - (2 * q 2) • dq 2 - (2 * q 3) • dq 3,
     (2 : ℝ) • ((q 0 • dq 3 + q 3 • dq 0) + (q 1 • dq 2 + q 2 • dq 1)),
     (2 : ℝ) • (-(q 0 • dq 2 + q 2 • dq 0) + (q 1 • dq 3 + q 3 • dq 1))],
    ![(2 : ℝ) • (-(q 0 • dq 3 + q 3 • dq 0) + (q 1 • dq 2 + q 2 • dq 1)),
     (2 * q 0) • dq 0 - (2 * q 1) • dq 1 + (2 * q 2) • dq 2 - (2 * q 3) • dq 3,
     (2 : ℝ) • ((q 0 • dq 1 + q 1 • dq 0) + (q 2 • dq 3 + q 3 • dq 2))],
    ![(2 : ℝ) • ((q 0 • dq 2 + q 2 • dq 0) + (q 1 • dq 3 + q 3 • dq 1)),
     (2 : ℝ) • (-(q 0 • dq 1 + q 1 • dq 0) + (q 2 • dq 3 + q 3 • dq 2)),
     (2 * q 0) • dq 0 - (2 * q 1) • dq 1 - (2 * q 2) • dq 2 + (2 * q 3) • dq 3]]

/-- Fatal message of doCoreCalc when the reference center was not provided
(RMSD.cpp line 428). -/
def msgCoreRefCenter : String :=
  "the center of the reference frame must be already provided at this stage"

/-- Fatal message of doCoreCalc when the positions center was not provided
(RMSD.cpp line 429). -/
def msgCorePosCenter : String :=
  "the center of the positions frame must be already provided at this stage"

/-- Prefix of the fatal message on eigensolver failure (RMSD.cpp line 494). -/
def msgDiagFail : String := "DIAGONALIZATION FAILED WITH ERROR CODE "

/-- RMSDCoreData::doCoreCalc (RMSD.cpp lines 424-564). Asserts that both
centers were provided, accumulates the weighted moments, builds the key
matrix, invokes the external eigensolver once, aborts on a non-zero error
code, and otherwise derives the rotation, the per-atom residuals, and (when
the weights differ) the rotation-derivative chain. The second component of
the result lists the matrices the eigensolver was invoked on, in order. -/
def RMSDCoreData.doCoreCalc {n : ℕ} (cd : RMSDCoreData n)
    (safe alEqDis : Bool) (diagMat : Mat4 → EigenSolverResult) :
    Except String (RMSDCoreData n) × List Mat4 :=
  if cd.creference_is_calculated then
    if cd.cpositions_is_calculated then
      let rr00 : ℝ := ∑ i, cd.align i * dotProduct (cd.positions i - cd.cp) (cd.positions i - cd.cp)
      let rr11 : ℝ := ∑ i, cd.align i * dotProduct (cd.reference i - cd.cr) (cd.reference i - cd.cr)
      let m : Mat4 := cd.keyMatrixOf
      let res : EigenSolverResult := diagMat m
      if res.code ≠ 0 then
        (.error (msgDiagFail ++ toString res.code), [m])
      else
        let q : Fin 4 → ℝ := res.eigenvecs 0
        let dq_dm : Fin 4 → Fin 4 → Fin 4 → ℝ := fun i j k =>
          ∑ l in ({1, 2, 3} : Finset (Fin 4)),
            res.eigenvecs l j * res.eigenvecs l i /
              (res.eigenvals 0 - res.eigenvals l) * res.eigenvecs 0 k
        let dq_drr01 : Fin 4 → Mat3 := fun i => ∑ j, ∑ k, dq_dm i j k • dm_drr01 j k
        let rotation : Mat3 := quatToRotation q
        let drot : Fin 3 → Fin 3 → Mat3 :=
          if alEqDis then cd.drotation_drr01 else quatToDRotation q dq_drr01
        let d : Fin n → Vec := fun i =>
          cd.positions i - cd.cp - matmul rotation (cd.reference i - cd.creference)
        let ddist_drotation : Mat3 :=
          if alEqDis then cd.ddist_drotation
          else ∑ i, (-2 * cd.displace i) • extProduct (d i) (cd.reference i - cd.cr)
        let ddist_drr01 : Mat3 :=
          if alEqDis then cd.ddist_drr01
          else ∑ a, ∑ b, ddist_drotation a b • drot a b
        (.ok { cd with
               rr00 := rr00
               rr11 := rr11
               eigenvals := res.eigenvals
               eigenvecs := res.eigenvecs
               rotation := rotation
               drotation_drr01 := drot
               d := d
               ddist_drotation := ddist_drotation
               ddist_drr01 := ddist_drr01
               alEqDis := alEqDis
               safe := safe
               isInitialized := true }, [m])
    else (.error msgCorePosCenter, [])
  else (.error msgCoreRefCenter, [])

/-- Fatal message of getDistance before doCoreCalc (RMSD.cpp line 568). -/
def msgDistNotInit : String :=
  "OptimalRMSD.cpp cannot calculate the distance without being initialized first by doCoreCalc "

/-- RMSDCoreData::getDistance (RMSD.cpp lines 566-588): read the distance
off the smallest eigenvalue, or resum it from the residuals when safe mode
is on or the weight vectors differ; take the square root when an unsquared
distance is requested; cache the value and its flavor. -/
def RMSDCoreData.getDistance {n : ℕ} (cd : RMSDCoreData n) (squared : Bool) :
    Except String (ℝ × RMSDCoreData n) :=
  if cd.isInitialized then
    let dist0 : ℝ := cd.eigenvals 0 + cd.rr00 + cd.rr11
    let dist1 : ℝ := if cd.safe || !cd.alEqDis then 0 else dist0
    let dist2 : ℝ := dist1 + ∑ i,
      (if cd.alEqDis then
        (if cd.safe then cd.align i * modulo2 (cd.d i) else 0)
       else cd.displace i * modulo2 (cd.d i))
    let dist3 : ℝ := if !squared then Real.sqrt dist2 else dist2
    .ok (dist3, { cd with
                  dist := dist3
                  distanceIsMSD := squared
                  hasDistance := true })
  else .error msgDistNotInit

/-- The distance value returned by getDistance, with a default on the error
path, for stating claims about the returned scalar. -/
def distanceValue {n : ℕ} (cd : RMSDCoreData n) (squared : Bool) : ℝ :=
  match cd.getDistance squared with
  | .ok (v, _) => v
  | .error _ => 0

/-- Fatal messages of getDDistanceDPositions (RMSD.cpp lines 597-598). -/
def msgDDPosDist : String :=
  "getDPositionsDerivatives needs to calculate the distance via getDistance first !"

/-- Fatal message of getDDistanceDPositions when not initialized. -/
def msgDDPosInit : String :=
  "getDPositionsDerivatives needs to initialize the coreData first!"

/-- RMSDCoreData::getDDistanceDPositions (RMSD.cpp lines 590-630). -/
def RMSDCoreData.getDDistanceDPositions {n : ℕ} (cd : RMSDCoreData n) :
    Except String (Fin n → Vec) :=
  let prefactor : ℝ :=
    if !cd.distanceIsMSD && cd.alEqDis then 2 * (0.5 / cd.dist) else 2
  if !cd.hasDistance then .error msgDDPosDist
  else if !cd.isInitialized then .error msgDDPosInit
  else if cd.alEqDis then
    .ok (fun i => prefactor • (cd.align i • cd.d i))
  else
    let tmp1 : Fin n → Vec := fun i => (2 * cd.displace i) • cd.d i
    let tmp2 : Fin n → Vec := fun i =>
      cd.align i • matmul cd.ddist_drr01 (cd.reference i - cd.creference)
    let ddist_dcpositions : Vec := ∑ i, -tmp1 i
    let csum : Vec := ∑ i, tmp2 i
    let derivatives : Fin n → Vec := fun i =>
      tmp1 i + tmp2 i + cd.align i • (ddist_dcpositions - csum)
    .ok (if !cd.distanceIsMSD then fun i => (0.5 / cd.dist) • derivatives i
         else derivatives)

/-- Fatal messages of getDDistanceDReference (RMSD.cpp lines 642-643). -/
def msgDDRefDist : String :=
  "getDDistanceDReference needs to calculate the distance via getDistance first !"

/-- Fatal message of getDDistanceDReference when not initialized. -/
def msgDDRefInit : String :=
  "getDDistanceDReference to initialize the coreData first!"

/-- RMSDCoreData::getDDistanceDReference (RMSD.cpp lines 632-678). Note the
prefactor on line 638 divides by the square root of the stored distance,
unlike line 596 which divides by the stored distance itself. -/
def RMSDCoreData.getDDistanceDReference {n : ℕ} (cd : RMSDCoreData n) :
    Except String (Fin n → Vec) :=
  let prefactor : ℝ :=
    if !cd.distanceIsMSD && cd.alEqDis then 2 * (0.5 / Real.sqrt cd.dist) else 2
  if !cd.hasDistance then .error msgDDRefDist
  else if !cd.isInitialized then .error msgDDRefInit
  else
    let t_rotation : Mat3 := transpose cd.rotation
    let t_ddist_drr01 : Mat3 := transpose cd.ddist_drr01
    if cd.alEqDis then
      .ok (fun i => (-prefactor) • (cd.align i • matmul t_rotation (cd.d i)))
    else
      let tmp1 : Fin n → Vec := fun i =>
        (2 * cd.displace i) • matmul t_rotation (cd.d i)
      let tmp2 : Fin n → Vec := fun i =>
        cd.align i • matmul t_ddist_drr01 (cd.positions i - cd.cpositions)
      let ddist_dcreference : Vec := ∑ i, tmp1 i
      let csum : Vec := ∑ i, tmp2 i
      let derivatives : Fin n → Vec := fun i =>
        -tmp1 i + tmp2 i + cd.align i • (ddist_dcreference - csum)
      .ok (if !cd.distanceIsMSD then fun i => (0.5 / cd.dist) • derivatives i
           else derivatives)

/-- Fatal message of both rotation-derivative accessors (RMSD.cpp lines 688
and 723 use the same string). -/
def msgDRotInit : String :=
  "getDRotationDPosition to initialize the coreData first!"

/-- RMSDCoreData::getDRotationDPosition (RMSD.cpp lines 686-713). -/
def RMSDCoreData.getDRotationDPosition {n : ℕ} (cd : RMSDCoreData n)
    (inverseTransform : Bool) : Except String (Fin 3 → Fin 3 → Fin n → Vec) :=
  if !cd.isInitialized then .error msgDRotInit
  else
    let csum : Vec := ∑ i, cd.align i • (cd.reference i - cd.creference)
    let v : Fin n → Vec := fun i =>
      cd.align i • (cd.reference i - cd.creference - csum)
    .ok (fun a b i =>
      if inverseTransform then matmul (cd.drotation_drr01 b a) (v i)
      else matmul (cd.drotation_drr01 a b) (v i))

/-- RMSDCoreData::getDRotationDReference (RMSD.cpp lines 721-750). -/
def RMSDCoreData.getDRotationDReference {n : ℕ} (cd : RMSDCoreData n)
    (inverseTransform : Bool) : Except String (Fin 3 → Fin 3 → Fin n → Vec) :=
  if !cd.isInitialized then .error msgDRotInit
  else
    let csum : Vec := ∑ i, cd.align i • (cd.positions i - cd.cpositions)
    let v : Fin n → Vec := fun i =>
      cd.align i • (cd.positions i - cd.cpositions - csum)
    .ok (fun a b i =>
      if inverseTransform then matmul (transpose (cd.drotation_drr01 b a)) (v i)
      else matmul (transpose (cd.drotation_drr01 a b)) (v i))

/-- Fatal message of getAlignedReferenceToPositions (RMSD.cpp line 757). -/
def msgAlignedRefInit : String :=
  "getAlignedReferenceToPostions needs to initialize the coreData first!"

/-- RMSDCoreData::getAlignedReferenceToPositions (RMSD.cpp lines 753-761). -/
def RMSDCoreData.getAlignedReferenceToPositions {n : ℕ} (cd : RMSDCoreData n) :
    Except String (Fin n → Vec) :=
  if !cd.isInitialized then .error msgAlignedRefInit
  else .ok (fun i => -cd.d i + cd.positions i - cd.cpositions)

/-- Fatal message of getAlignedPositionsToReference (RMSD.cpp line 766). -/
def msgAlignedPosInit : String :=
  "getAlignedPostionsToReference needs to initialize the coreData first!"

/-- RMSDCoreData::getAlignedPositionsToReference (RMSD.cpp lines 762-770). -/
def RMSDCoreData.getAlignedPositionsToReference {n : ℕ} (cd : RMSDCoreData n) :
    Except String (Fin n → Vec) :=
  if !cd.isInitialized then .error msgAlignedPosInit
  else .ok (fun i => matmul (transpose cd.rotation) (cd.positions i - cd.cpositions))

/-- Fatal message of getCenteredPositions (RMSD.cpp line 777). -/
def msgCenteredPosInit : String :=
  "getCenteredPositions needs to initialize the coreData first!"

/-- RMSDCoreData::getCenteredPositions (RMSD.cpp lines 773-781). -/
def RMSDCoreData.getCenteredPositions {n : ℕ} (cd : RMSDCoreData n) :
    Except String (Fin n → Vec) :=
  if !cd.isInitialized then .error msgCenteredPosInit
  else .ok (fun i => cd.positions i - cd.cpositions)

/-- Fatal message of getCenteredReference (RMSD.cpp line 787). -/
def msgCenteredRefInit : String :=
  "getCenteredReference needs to initialize the coreData first!"

/-- RMSDCoreData::getCenteredReference (RMSD.cpp lines 783-791). -/
def RMSDCoreData.getCenteredReference {n : ℕ} (cd : RMSDCoreData n) :
    Except String (Fin n → Vec) :=
  if !cd.isInitialized then .error msgCenteredRefInit
  else .ok (fun i => cd.reference i - cd.creference)

/-- Fatal message of both rotation-matrix accessors (RMSD.cpp lines 797 and
802 use the same string). -/
def msgRotMatInit : String :=
  "getRotationMatrixReferenceToPositions needs to initialize the coreData first!"

/-- RMSDCoreData::getRotationMatrixReferenceToPositions (lines 796-799). -/
def RMSDCoreData.getRotationMatrixReferenceToPositions {n : ℕ}
    (cd : RMSDCoreData n) : Except String Mat3 :=
  if !cd.isInitialized then .error msgRotMatInit
  else .ok cd.rotation

/-- RMSDCoreData::getRotationMatrixPositionsToReference (lines 801-804). -/
def RMSDCoreData.getRotationMatrixPositionsToReference {n : ℕ}
    (cd : RMSDCoreData n) : Except String Mat3 :=
  if !cd.isInitialized then .error msgRotMatInit
  else .ok (transpose cd.rotation)

/-- Fatal message of optimalAlignment when the reference center was not
calculated (RMSD.cpp line 402). -/
def msgFacadeRefCalc : String :=
  " at this point the reference center must be calculated"

/-- Fatal message of optimalAlignment when the reference center was not
removed (RMSD.cpp line 403). -/
def msgFacadeRefRemoved : String :=
  " at this point the reference center must be removed"

/-- The core-data object as the facade hands it to doCoreCalc (RMSD.cpp
lines 405-410): positions-center flag and value are transferred, the
reference-removed flag is transferred, and then line 410 calls
setPositionsCenter a second time instead of setReferenceCenter. -/
def RMSD.facadeCoreData {n : ℕ} (s : RMSD n) (positions : Fin n → Vec) :
    RMSDCoreData n :=
  ((((mkRMSDCoreData s.align s.displace positions s.reference).setPositionsCenterIsRemoved
        s.positions_center_is_removed).setPositionsCenter
      s.positions_center).setReferenceCenterIsRemoved
    s.reference_center_is_removed).setPositionsCenter s.positions_center

/-- RMSD::optimalAlignment, the active non-OLDRMSD variant (RMSD.cpp lines
395-419): assert the reference center state, build the core data, run
doCoreCalc, and return 0 with the derivatives argument untouched — the
distance and derivative retrieval steps are commented out in the source. -/
def RMSD.optimalAlignment {n : ℕ} (s : RMSD n) (safe alEqDis : Bool)
    (positions derivatives : Fin n → Vec) (squared : Bool)
    (diagMat : Mat4 → EigenSolverResult) : Except String (ℝ × (Fin n → Vec)) :=
  if s.reference_center_is_calculated then
    if s.reference_center_is_removed then
      match ((s.facadeCoreData positions).doCoreCalc safe alEqDis diagMat).1 with
      | .error e => .error e
      | .ok _ => .ok (0, derivatives)
    else .error msgFacadeRefRemoved
  else .error msgFacadeRefCalc

/-- RMSD::calculate (RMSD.cpp lines 137-160): dispatch on the method tag;
the optimal variants further branch on align == displace. The derivatives
argument is passed by reference in C++ and is returned unchanged on paths
that do not write it. -/
def RMSD.calculate {n : ℕ} (s : RMSD n) (positions : Fin n → Vec)
    (derivatives : Fin n → Vec) (squared : Bool)
    (diagMat : Mat4 → EigenSolverResult) : Except String (ℝ × (Fin n → Vec)) :=
  match s.alignmentMethod with
  | .SIMPLE =>
      .ok (simpleAlignment s.align s.displace positions s.reference squared)
  | .OPTIMAL_FAST =>
      if s.align = s.displace then
        s.optimalAlignment false true positions derivatives squared diagMat
      else s.optimalAlignment false false positions derivatives squared diagMat
  | .OPTIMAL =>
      if s.align = s.displace then
        s.optimalAlignment true true positions derivatives squared diagMat
      else s.optimalAlignment true false positions derivatives squared diagMat

/-- Whether an Except result is on the ok path. -/
def exceptIsOk {α : Type _} : Except String α → Bool
  | .ok _ => true
  | .error _ => false

/-- C6: under method SIMPLE, calculate returns the displace-weighted sum of
the squared residuals d i, with d i the deviation after matching the
align-weighted centroids, returns derivative 2 (displace i times d i plus
align i times shift) with shift the mismatch of align and displace centroid
differences, and when squared is false rescales the distance by the square
root and every derivative by 0.5 over that square root. -/
theorem simpleAlignment_formula {n : ℕ} (align displace : Fin n → ℝ)
    (positions reference : Fin n → Vec) :
    simpleAlignment align displace positions reference true =
      (simpleDistSpec align displace positions reference,
       simpleDerivSpec align displace positions reference) ∧
    simpleAlignment align displace positions reference false =
      (Real.sqrt (simpleDistSpec align displace positions reference),
       fun i => (0.5 / Real.sqrt (simpleDistSpec align displace positions reference)) •
         simpleDerivSpec align displace positions reference i) := by
  constructor <;> rfl

/-- C9: the 4x4 key matrix built by doCoreCalc from rr01 is symmetric. -/
theorem keyMatrix_symmetric (rr01 : Mat3) (i j : Fin 4) :
    keyMatrix rr01 i j = keyMatrix rr01 j i := by
  fin_cases i <;> fin_cases j <;> rfl

/-- The facade never marks the reference center as calculated: line 410 of
RMSD.cpp repeats setPositionsCenter instead of calling setReferenceCenter. -/
theorem facadeCoreData_creference_flag {n : ℕ} (s : RMSD n)
    (p : Fin n → Vec) :
    (s.facadeCoreData p).creference_is_calculated = false := rfl

/-- The facade does mark the positions center as calculated. -/
theorem facadeCoreData_cpositions_flag {n : ℕ} (s : RMSD n)
    (p : Fin n → Vec) :
    (s.facadeCoreData p).cpositions_is_calculated = true := rfl

/-- doCoreCalc stops on its first assertion whenever the reference center
was not provided. -/
theorem doCoreCalc_no_reference_center {n : ℕ} (cd : RMSDCoreData n)
    (safe alEqDis : Bool) (diagMat : Mat4 → EigenSolverResult)
    (h : cd.creference_is_calculated = false) :
    cd.doCoreCalc safe alEqDis diagMat = (.error msgCoreRefCenter, []) := by
  unfold RMSDCoreData.doCoreCalc
  rw [h]
  simp

/-- Any run of the active optimalAlignment on a well-configured facade
aborts inside doCoreCalc on the missing reference center. -/
theorem optimalAlignment_aborts {n : ℕ} (s : RMSD n) (safe alEqDis : Bool)
    (positions derivatives : Fin n → Vec) (squared : Bool)
    (diagMat : Mat4 → EigenSolverResult)
    (h1 : s.reference_center_is_calculated = true)
    (h2 : s.reference_center_is_removed = true) :
    s.optimalAlignment safe alEqDis positions derivatives squared diagMat =
      .error msgCoreRefCenter := by
  unfold RMSD.optimalAlignment
  rw [h1, h2]
  rw [doCoreCalc_no_reference_center _ _ _ _ (facadeCoreData_creference_flag s positions)]
  simp

/-- C2: the facade hands doCoreCalc a core-data object whose positions
center is marked calculated but whose reference center is not — line 410
of RMSD.cpp repeats setPositionsCenter instead of calling
setReferenceCenter — so the first fatal assertion of doCoreCalc always
fires; the claim that both centroids are supplied and the assertion
branches are unreachable fails on every input. -/
theorem facade_never_sets_reference_center {n : ℕ} (s : RMSD n)
    (positions : Fin n → Vec) (safe alEqDis : Bool)
    (diagMat : Mat4 → EigenSolverResult) :
    (s.facadeCoreData positions).creference_is_calculated = false ∧
    (s.facadeCoreData positions).cpositions_is_calculated = true ∧
    (s.facadeCoreData positions).doCoreCalc safe alEqDis diagMat =
      (.error msgCoreRefCenter, []) :=
  ⟨rfl, rfl, doCoreCalc_no_reference_center _ _ _ _ rfl⟩

/-- An eigensolver stub that always succeeds with zero output. -/
def solOk : Mat4 → EigenSolverResult :=
  fun _ => ⟨0, fun _ => 0, fun _ _ => 0⟩

/-- A facade configured with the OPTIMAL-FAST method, the two-atom reference
of the spec scenario, uniform weights, and a pre-centered reference. -/
def sC1 : RMSD 2 where
  alignmentMethod := .OPTIMAL_FAST
  reference := ![![0, 0, 0], ![0, 1, 0]]
  align := fun _ => 1 / 2
  displace := fun _ => 1 / 2
  reference_center := ![0, 1 / 2, 0]
  reference_center_is_calculated := true
  reference_center_is_removed := true
  positions_center := 0
  positions_center_is_calculated := false
  positions_center_is_removed := false

/-- The moving positions of the spec scenario. -/
def posC1 : Fin 2 → Vec := ![![0, 0, 0], ![1, 0, 0]]

/-- C1: calculate with an optimal method does not return the
optimal-superposition distance with per-atom gradients: on this concrete
well-configured input it aborts with the doCoreCalc reference-center
assertion, because the facade never transfers the reference center; the
distance and derivative retrieval steps of optimalAlignment are commented
out in the source, which would otherwise return 0 with the derivatives
argument untouched. -/
theorem calculate_optimal_returns_error :
    sC1.calculate posC1 (fun _ => 0) true solOk = .error msgCoreRefCenter := by
  show (if sC1.align = sC1.displace then
          sC1.optimalAlignment false true posC1 (fun _ => 0) true solOk
        else sC1.optimalAlignment false false posC1 (fun _ => 0) true solOk) =
    .error msgCoreRefCenter
  split <;> exact optimalAlignment_aborts _ _ _ _ _ _ _ rfl rfl

/-- The three-atom reference used for the identical-configuration scenario. -/
def refC4 : Fin 3 → Vec := ![![0, 0, 0], ![1, 0, 0], ![0, 1, 0]]

/-- Non-uniform weights summing to one. -/
def wC4 : Fin 3 → ℝ := ![1 / 2, 1 / 3, 1 / 6]

/-- The facade for the identical-configuration scenario, SIMPLE method. -/
def sC4simple : RMSD 3 where
  alignmentMethod := .SIMPLE
  reference := refC4
  align := wC4
  displace := wC4
  reference_center := 0
  reference_center_is_calculated := true
  reference_center_is_removed := true
  positions_center := 0
  positions_center_is_calculated := false
  positions_center_is_removed := false

/-- The same facade with the OPTIMAL method. -/
def sC4opt : RMSD 3 := { sC4simple with alignmentMethod := .OPTIMAL }

/-- C4: with positions equal to the reference (3 atoms, non-uniform weights
summing to one), SIMPLE returns distance 0 and all-zero derivatives for
both squared flavors — including through the 0.5 over sqrt rescaling at
distance 0 — but the OPTIMAL method aborts on the reference-center
assertion instead of returning 0 with zero derivatives, so the claim fails
for the optimal methods. -/
theorem identical_configurations_distance :
    sC4simple.calculate refC4 (fun _ => 0) true solOk =
      .ok (0, fun _ => 0) ∧
    sC4simple.calculate refC4 (fun _ => 0) false solOk =
      .ok (0, fun _ => 0) ∧
    sC4opt.calculate refC4 (fun _ => 0) false solOk =
      .error msgCoreRefCenter := by
  refine ⟨?_, ?_, ?_⟩
  · show Except.ok (simpleAlignment wC4 wC4 refC4 refC4 true) = _
    rw [simpleAlignment_self]
  · show Except.ok (simpleAlignment wC4 wC4 refC4 refC4 false) = _
    rw [simpleAlignment_self]
  · show (if sC4opt.align = sC4opt.displace then
            sC4opt.optimalAlignment true true refC4 (fun _ => 0) false solOk
          else sC4opt.optimalAlignment true false refC4 (fun _ => 0) false solOk) =
      .error msgCoreRefCenter
    split <;> exact optimalAlignment_aborts _ _ _ _ _ _ _ rfl rfl

/-- The ok constructor is on the ok path. -/
theorem exceptIsOk_ok {α : Type _} (a : α) :
    exceptIsOk (Except.ok a : Except String α) = true := rfl

/-- The error constructor is not on the ok path. -/
theorem exceptIsOk_error {α : Type _} (e : String) :
    exceptIsOk (Except.error e : Except String α) = false := rfl

/-- C5: with the engine initialized, getDistance returns the eigenvalue
shortcut eigenvals 0 + rr00 + rr11 exactly when the stored align-equals-
displace flag is set and safe mode is off; when safe mode is on it resums
with the align weights, and when the weight vectors differ it resums with
the displace weights. -/
theorem getDistance_policy {n : ℕ} (cd : RMSDCoreData n)
    (h : cd.isInitialized = true) :
    (cd.alEqDis = true ∧ cd.safe = false →
      distanceValue cd true = cd.eigenvals 0 + cd.rr00 + cd.rr11) ∧
    (cd.alEqDis = true ∧ cd.safe = true →
      distanceValue cd true = ∑ i, cd.align i * modulo2 (cd.d i)) ∧
    (cd.alEqDis = false →
      distanceValue cd true = ∑ i, cd.displace i * modulo2 (cd.d i)) := by
  unfold distanceValue RMSDCoreData.getDistance
  rw [h]
  refine ⟨?_, ?_, ?_⟩
  · rintro ⟨h1, h2⟩; rw [h1, h2]; simp
  · rintro ⟨h1, h2⟩; rw [h1, h2]; simp
  · intro h1; rw [h1]; simp

/-- An initialized engine state with eigenvalue 2 and moments 3 and 4. -/
def cdC5 : RMSDCoreData 0 :=
  { mkRMSDCoreData Fin.elim0 Fin.elim0 Fin.elim0 Fin.elim0 with
    eigenvals := ![2, 0, 0, 0]
    rr00 := 3
    rr11 := 4
    alEqDis := true
    safe := false
    isInitialized := true }

/-- Witness for C5: at a concrete initialized state the eigenvalue shortcut
is returned, 2 + 3 + 4 = 9. -/
theorem getDistance_policy_witness :
    cdC5.isInitialized = true ∧ distanceValue cdC5 true = 9 := by
  refine ⟨rfl, ?_⟩
  have h := (getDistance_policy cdC5 rfl).1 ⟨rfl, rfl⟩
  rw [h]
  norm_num [cdC5, mkRMSDCoreData]

/-- C7: the distance-derivative accessors succeed exactly when both
doCoreCalc and getDistance have run, while the rotation-derivative
accessors, the aligned and centered read-backs and the rotation-matrix
accessors succeed exactly when doCoreCalc has run, with no requirement on
getDistance. -/
theorem accessor_gating {n : ℕ} (cd : RMSDCoreData n) (b : Bool) :
    exceptIsOk cd.getDDistanceDPositions = (cd.hasDistance && cd.isInitialized) ∧
    exceptIsOk cd.getDDistanceDReference = (cd.hasDistance && cd.isInitialized) ∧
    exceptIsOk (cd.getDRotationDPosition b) = cd.isInitialized ∧
    exceptIsOk (cd.getDRotationDReference b) = cd.isInitialized ∧
    exceptIsOk cd.getAlignedReferenceToPositions = cd.isInitialized ∧
    exceptIsOk cd.getAlignedPositionsToReference = cd.isInitialized ∧
    exceptIsOk cd.getCenteredPositions = cd.isInitialized ∧
    exceptIsOk cd.getCenteredReference = cd.isInitialized ∧
    exceptIsOk cd.getRotationMatrixReferenceToPositions = cd.isInitialized ∧
    exceptIsOk cd.getRotationMatrixPositionsToReference = cd.isInitialized := by
  unfold RMSDCoreData.getDDistanceDPositions RMSDCoreData.getDDistanceDReference
    RMSDCoreData.getDRotationDPosition RMSDCoreData.getDRotationDReference
    RMSDCoreData.getAlignedReferenceToPositions
    RMSDCoreData.getAlignedPositionsToReference
    RMSDCoreData.getCenteredPositions RMSDCoreData.getCenteredReference
    RMSDCoreData.getRotationMatrixReferenceToPositions
    RMSDCoreData.getRotationMatrixPositionsToReference
  cases hd : cd.hasDistance <;> cases hi : cd.isInitialized <;>
    cases ha : cd.alEqDis <;>
      simp [hd, hi, ha, exceptIsOk_ok, exceptIsOk_error]

/-- C8: when the eigensolver reports a non-zero error code, doCoreCalc
aborts with the DIAGONALIZATION FAILED message carrying the string form of
that code, and the solver was invoked exactly once, on the key matrix. -/
theorem diag_failure_fatal_no_retry {n : ℕ} (cd : RMSDCoreData n)
    (safe alEqDis : Bool) (diagMat : Mat4 → EigenSolverResult)
    (h1 : cd.creference_is_calculated = true)
    (h2 : cd.cpositions_is_calculated = true)
    (h3 : (diagMat cd.keyMatrixOf).code ≠ 0) :
    cd.doCoreCalc safe alEqDis diagMat =
      (.error (msgDiagFail ++ toString (diagMat cd.keyMatrixOf).code),
       [cd.keyMatrixOf]) := by
  unfold RMSDCoreData.doCoreCalc
  rw [h1, h2]
  simp [h3]

/-- A core-data state with both centers provided. -/
def cdC8 : RMSDCoreData 0 :=
  { mkRMSDCoreData Fin.elim0 Fin.elim0 Fin.elim0 Fin.elim0 with
    creference_is_calculated := true
    cpositions_is_calculated := true }

/-- An eigensolver stub that always fails with error code 3. -/
def solFail : Mat4 → EigenSolverResult :=
  fun _ => ⟨3, fun _ => 0, fun _ _ => 0⟩

/-- Witness for C8: a concrete failing run aborts with the message for code
3 after exactly one solver invocation. -/
theorem diag_failure_witness :
    cdC8.creference_is_calculated = true ∧
    cdC8.cpositions_is_calculated = true ∧
    (solFail cdC8.keyMatrixOf).code ≠ 0 ∧
    cdC8.doCoreCalc false false solFail =
      (.error (msgDiagFail ++ toString (solFail cdC8.keyMatrixOf).code),
       [cdC8.keyMatrixOf]) :=
  ⟨rfl, rfl, by decide,
   diag_failure_fatal_no_retry cdC8 false false solFail rfl rfl (by decide)⟩

/-- The identity tensor. -/
def idMat3 : Mat3 := ![![1, 0, 0], ![0, 1, 0], ![0, 0, 1]]

/-- Auxiliary: the square root of four is two. -/
theorem sqrt_four_eq_two : Real.sqrt 4 = 2 := by
  rw [show (4 : ℝ) = 2 ^ 2 by norm_num]
  exact Real.sqrt_sq (by norm_num)

/-- A one-atom engine state after an unsquared getDistance: stored distance
4, equal weights flag set, identity rotation, residual (1,0,0). -/
def cdC3 : RMSDCoreData 1 :=
  { mkRMSDCoreData (fun _ => 1) (fun _ => 1) (fun _ => 0) (fun _ => 0) with
    rotation := idMat3
    d := fun _ => ![1, 0, 0]
    alEqDis := true
    safe := false
    isInitialized := true
    hasDistance := true
    distanceIsMSD := false
    dist := 4 }

/-- C3: with align equal to displace and an unsquared stored distance, the
two distance-derivative accessors do not apply one common prefactor: at
stored distance 4 the positions accessor multiplies by 2 times 0.5 over the
distance, giving gradient (1/4, 0, 0), while the reference accessor
multiplies by 2 times 0.5 over the square root of the distance, giving
gradient (-1/2, 0, 0); the two implied prefactors 1/4 and 1/2 differ. -/
theorem ddistance_prefactor_mismatch :
    cdC3.getDDistanceDPositions = .ok (fun _ => ![(1 : ℝ) / 4, 0, 0]) ∧
    cdC3.getDDistanceDReference = .ok (fun _ => ![-((1 : ℝ) / 2), 0, 0]) ∧
    ((1 : ℝ) / 4) ≠ ((1 : ℝ) / 2) := by
  refine ⟨?_, ?_, by norm_num⟩
  · unfold RMSDCoreData.getDDistanceDPositions
    simp only [cdC3, mkRMSDCoreData]
    norm_num
  · unfold RMSDCoreData.getDDistanceDReference
    simp only [cdC3, mkRMSDCoreData]
    norm_num [sqrt_four_eq_two]
    funext i j
    fin_cases j <;>
      norm_num [matmul, transpose, idMat3, Fin.sum_univ_three]

/-- C10 (amended): setAlign with normalize and remove_center, on an object
whose reference center was removed and stored, and with new weights of
non-zero total, adds the old center back, subtracts the centroid under the
new normalized weights, and afterwards the stored reference has zero
centroid under the new weights, the new weights sum to one, and both
center flags are set. -/
theorem setAlign_normalize_remove_center {n : ℕ} (s : RMSD n)
    (a : Fin n → ℝ)
    (hrem : s.reference_center_is_removed = true)
    (hcal : s.reference_center_is_calculated = true)
    (hw : (∑ i, a i) ≠ 0) :
    ∃ t : RMSD n, s.setAlign a true true = .ok t ∧
      (∑ i, t.align i) = 1 ∧
      (∑ i, t.align i • t.reference i) = 0 ∧
      t.reference_center_is_calculated = true ∧
      t.reference_center_is_removed = true ∧
      (∀ i, t.reference i =
        (s.reference i + s.reference_center) - t.reference_center) := by
  unfold RMSD.setAlign
  rw [hrem, hcal]
  simp only [if_true, ite_true, eq_self_iff_true]
  have hsum : (∑ i, a i * (1 / ∑ j, a j)) = 1 := by
    rw [← Finset.sum_mul, mul_one_div, div_self hw]
  refine ⟨_, rfl, hsum, ?_, rfl, rfl, fun i => rfl⟩
  have hexp : ∀ i : Fin n,
      (a i * (1 / ∑ j, a j)) •
          (removeCenter (addCenter s.reference s.reference_center)
            (calculateCenter (addCenter s.reference s.reference_center)
              (fun k => a k * (1 / ∑ j, a j))) i) =
        (a i * (1 / ∑ j, a j)) •
            addCenter s.reference s.reference_center i -
          (a i * (1 / ∑ j, a j)) •
            calculateCenter (addCenter s.reference s.reference_center)
              (fun k => a k * (1 / ∑ j, a j)) := fun i => smul_sub _ _ _
  calc (∑ i, (a i * (1 / ∑ j, a j)) •
          (removeCenter (addCenter s.reference s.reference_center)
            (calculateCenter (addCenter s.reference s.reference_center)
              (fun k => a k * (1 / ∑ j, a j))) i))
      = (∑ i, (a i * (1 / ∑ j, a j)) •
            addCenter s.reference s.reference_center i) -
          (∑ i, (a i * (1 / ∑ j, a j))) •
            calculateCenter (addCenter s.reference s.reference_center)
              (fun k => a k * (1 / ∑ j, a j)) := by
        rw [Finset.sum_congr rfl (fun i _ => hexp i), Finset.sum_sub_distrib,
          Finset.sum_smul]
    _ = 0 := by
        rw [hsum, one_smul, calculateCenter, sub_self]

/-- A one-atom facade with a removed and stored reference center. -/
def sC10 : RMSD 1 where
  alignmentMethod := .SIMPLE
  reference := fun _ => ![3, 0, 0]
  align := fun _ => 1
  displace := fun _ => 1
  reference_center := ![1, 0, 0]
  reference_center_is_calculated := true
  reference_center_is_removed := true
  positions_center := 0
  positions_center_is_calculated := false
  positions_center_is_removed := false

/-- Witness for C10: the amended statement at a concrete one-atom object
with new weight 2. -/
theorem setAlign_normalize_remove_center_witness :
    ((∑ i : Fin 1, (fun _ => (2 : ℝ)) i) ≠ 0) ∧
    (∃ t : RMSD 1, sC10.setAlign (fun _ => 2) true true = .ok t ∧
      (∑ i, t.align i) = 1 ∧
      (∑ i, t.align i • t.reference i) = 0 ∧
      t.reference_center_is_calculated = true ∧
      t.reference_center_is_removed = true ∧
      (∀ i, t.reference i =
        (sC10.reference i + sC10.reference_center) - t.reference_center)) := by
  have hw : (∑ i : Fin 1, (fun _ => (2 : ℝ)) i) ≠ 0 := by
    norm_num [Fin.sum_univ_one]
  exact ⟨hw, setAlign_normalize_remove_center sC10 (fun _ => 2) rfl rfl hw⟩

/-- The sum of the stored align weights after calling setAlign with
all-zero weights under normalize and remove_center, with 2 as the default
on the (unreached) error path. -/
def alignSumAfterZero : ℝ :=
  match sC10.setAlign (fun _ => 0) true true with
  | .ok t => ∑ i, t.align i
  | .error _ => 2

/-- C10 counterexample: with an all-zero align weight vector of matching
length the call succeeds but the stored weights sum to 0, not 1, because
the normalization divides by the zero total; so the claim fails as stated
for arbitrary weight vectors. -/
theorem setAlign_zero_weight_cex :
    alignSumAfterZero = 0 ∧ (0 : ℝ) ≠ 1 := by
  constructor
  · unfold alignSumAfterZero RMSD.setAlign
    norm_num [sC10, Fin.sum_univ_one]
  · norm_num

end PLMD

end
